import Mathlib

/-!
Verification of the multi-ai-agent-trading repository.

This file shallowly embeds the parts of the Python code base that the
verified properties talk about:

* `src/agents/risk_manager/position_sizing.py`   (Kelly criterion)
* `src/agents/risk_manager/risk_assessment.py`   (trade validation)
* `src/agents/risk_manager/agent.py`             (trade-intent handling)
* `src/agents/execution/position_manager.py`     (position P&L tracking)
* `src/agents/execution/agent.py`                (rejected-order handling)
* `src/agents/strategy/signal_fusion.py`         (signal fusion policies)
* `src/agents/strategy/agent.py`                 (decision / intent creation)
* `src/agents/base/protocol.py`                  (message model, serialization)

Python floats are modelled as rationals (`ℚ`); Python dicts keyed by
strings are modelled as association lists with update-in-place-or-append
insertion, matching dict semantics.  Pydantic model construction, which
validates required fields and enum/range constraints and raises on
failure, is modelled by `Option`-returning smart constructors.
-/

namespace Trading

/-- Trading signal types (`protocol.SignalType`, `signal_fusion.SignalType`). -/
inductive SignalType
  | BUY
  | SELL
  | HOLD
  deriving DecidableEq, Repr

/-- Order side (`protocol.OrderSide`). -/
inductive OrderSide
  | BUY
  | SELL
  deriving DecidableEq, Repr

/-- Order status of the *protocol* message model
(`src/agents/base/protocol.py`, class `OrderStatus`).  Its members are
PENDING, FILLED, PARTIAL, CANCELLED, FAILED — note there is no REJECTED
member. -/
inductive ProtocolOrderStatus
  | PENDING
  | FILLED
  | PARTIAL
  | CANCELLED
  | FAILED
  deriving DecidableEq, Repr

/-- Pydantic coercion of a string into `protocol.OrderStatus`: enum lookup
by value; an unknown value raises a `ValidationError`, modelled by `none`. -/
def protocolOrderStatusOfString (s : String) : Option ProtocolOrderStatus :=
  if s = "PENDING" then some ProtocolOrderStatus.PENDING
  else if s = "FILLED" then some ProtocolOrderStatus.FILLED
  else if s = "PARTIAL" then some ProtocolOrderStatus.PARTIAL
  else if s = "CANCELLED" then some ProtocolOrderStatus.CANCELLED
  else if s = "FAILED" then some ProtocolOrderStatus.FAILED
  else none

/-- Order status of the order *executor*
(`src/agents/execution/order_executor.py`, class `OrderStatus`); this one
does have a REJECTED member. -/
inductive ExecOrderStatus
  | PENDING
  | OPEN
  | PARTIALLY_FILLED
  | FILLED
  | CANCELLED
  | REJECTED
  | EXPIRED
  deriving DecidableEq, Repr

/-! ## Kelly criterion (`src/agents/risk_manager/position_sizing.py`) -/

/-- `KellyCriterion` configuration with the constructor defaults. -/
structure KellyCriterion where
  max_kelly_fraction : ℚ := 0.25
  min_kelly_fraction : ℚ := 0.01
  confidence_threshold : ℚ := 0.5

/-- `KellyCriterion.calculate`.  The `account_balance` argument is accepted
and ignored, exactly as in the source. -/
def KellyCriterion.calculate (kc : KellyCriterion)
    (win_probability reward_risk_ratio account_balance : ℚ) : ℚ :=
  -- Validate inputs
  if win_probability ≤ 0 ∨ 1 ≤ win_probability then kc.min_kelly_fraction
  else if reward_risk_ratio ≤ 0 then kc.min_kelly_fraction
  else
    -- Kelly formula
    let lose_probability := 1 - win_probability
    let kelly_fraction :=
      (win_probability * reward_risk_ratio - lose_probability) / reward_risk_ratio
    -- Apply constraints
    let kf₁ := max kc.min_kelly_fraction kelly_fraction
    let kf₂ := min kc.max_kelly_fraction kf₁
    -- Additional safety: reduce if confidence is low
    if win_probability < kc.confidence_threshold then kf₂ * 0.5 else kf₂

/-- A `KellyCriterion` with all defaults, as instantiated by the position
sizer. -/
def defaultKelly : KellyCriterion := {}

/-! ## Trade validation (`src/agents/risk_manager/risk_assessment.py`) -/

/-- The five rejection reasons `TradeValidator.validate_trade` can append.
The Python code appends formatted strings; only their identity matters here. -/
inductive RejectReason
  | lowConfidence
  | poorRewardRisk
  | excessiveTradeRisk
  | portfolioRiskLimit
  | highCorrelation
  deriving DecidableEq, Repr

/-- An entry of the `existing_positions` list consumed by
`validate_trade` (a dict with at least `symbol` and `size_usd`). -/
structure ExistingPosition where
  symbol : String
  size_usd : ℚ
  deriving DecidableEq, Repr

/-- Result record (`TradeRiskAssessment` dataclass); the fields the
claims use. -/
structure TradeRiskAssessment where
  symbol : String
  approved : Bool
  risk_score : ℚ
  position_size : ℚ
  max_loss : ℚ
  var_contribution : ℚ
  portfolio_risk_after : ℚ
  rejection_reason : Option (List RejectReason)
  deriving DecidableEq, Repr

/-- `TradeValidator` configuration with the constructor defaults. -/
structure TradeValidator where
  max_portfolio_risk : ℚ := 0.20
  max_single_trade_risk : ℚ := 0.05
  min_reward_risk_ratio : ℚ := 1.5
  min_confidence : ℚ := 0.6
  max_correlation_risk : ℚ := 0.30

/-- `p["symbol"].split("/")[0]`: the base currency of a symbol string. -/
def baseCurrency (s : String) : String := (s.splitOn "/").headD s

/-- Sum of `size_usd` over existing positions whose base currency equals
the candidate symbol's base currency (check 5 of `validate_trade`). -/
def sameClassExposure (symbol : String) (ps : List ExistingPosition) : ℚ :=
  ((ps.filter (fun p => baseCurrency p.symbol == baseCurrency symbol)).map
    (fun p => p.size_usd)).sum

/-- `TradeValidator.validate_trade`.  Requires `account_balance ≠ 0` to be
meaningful (the Python code divides by it unconditionally). -/
def TradeValidator.validate_trade (tv : TradeValidator) (symbol : String)
    (confidence position_size risk_amount reward_risk_ratio
     current_portfolio_risk account_balance : ℚ)
    (existing_positions : List ExistingPosition) : TradeRiskAssessment :=
  let trade_risk_pct := risk_amount / account_balance
  let new_portfolio_risk := current_portfolio_risk + trade_risk_pct
  -- Check 1: Confidence threshold
  let fired₁ := confidence < tv.min_confidence
  -- Check 2: Reward/Risk ratio
  let fired₂ := reward_risk_ratio < tv.min_reward_risk_ratio
  -- Check 3: Single trade risk
  let fired₃ := trade_risk_pct > tv.max_single_trade_risk
  -- Check 4: Portfolio risk
  let fired₄ := new_portfolio_risk > tv.max_portfolio_risk
  -- Check 5: Correlation exposure (only evaluated when the list is truthy)
  let fired₅ := existing_positions ≠ [] ∧
    sameClassExposure symbol existing_positions / account_balance >
      tv.max_correlation_risk
  let rejections : List RejectReason :=
    (if fired₁ then [RejectReason.lowConfidence] else []) ++
    (if fired₂ then [RejectReason.poorRewardRisk] else []) ++
    (if fired₃ then [RejectReason.excessiveTradeRisk] else []) ++
    (if fired₄ then [RejectReason.portfolioRiskLimit] else []) ++
    (if fired₅ then [RejectReason.highCorrelation] else [])
  let risk_score : ℚ :=
    (if fired₁ then 0.3 else 0) + (if fired₂ then 0.2 else 0) +
    (if fired₃ then 0.3 else 0) + (if fired₄ then 0.4 else 0) +
    (if fired₅ then 0.2 else 0)
  -- Calculate final risk score (0-1)
  let risk_score := min 1.0 risk_score
  -- Approve if no rejections
  let approved := rejections.isEmpty
  let rejection_reason := if rejections.isEmpty then none else some rejections
  { symbol := symbol
    approved := approved
    risk_score := risk_score
    position_size := position_size
    max_loss := risk_amount
    -- VaR contribution (simple estimate)
    var_contribution := risk_amount * 1.65
    portfolio_risk_after := new_portfolio_risk
    rejection_reason := rejection_reason }

/-- The `TradeValidator` with all defaults. -/
def defaultValidator : TradeValidator := {}

/-! ## Position manager (`src/agents/execution/position_manager.py`) -/

/-- `PositionSide`. -/
inductive PositionSide
  | LONG
  | SHORT
  deriving DecidableEq, Repr

/-- `PositionStatus`. -/
inductive PositionStatus
  | OPEN
  | CLOSED
  | PARTIALLY_CLOSED
  deriving DecidableEq, Repr

/-- The `Position` dataclass (the `metadata` dict and the `entry_time`
datetime carry no information relevant to P&L and are omitted). -/
structure Position where
  position_id : String
  symbol : String
  side : PositionSide
  entry_price : ℚ
  current_price : ℚ
  quantity : ℚ
  initial_quantity : ℚ
  unrealized_pnl : ℚ
  unrealized_pnl_pct : ℚ
  realized_pnl : ℚ
  total_pnl : ℚ
  stop_loss : Option ℚ
  take_profit : Option ℚ
  status : PositionStatus
  deriving DecidableEq, Repr

/-- Per-unit P&L at a given price: `price − entry` for LONG, `entry − price`
for SHORT. -/
def pnlPerUnit (p : Position) (price : ℚ) : ℚ :=
  match p.side with
  | PositionSide.LONG => price - p.entry_price
  | PositionSide.SHORT => p.entry_price - price

/-- `PositionManager.update_position_price` restricted to one position:
update price and recompute unrealized P&L, percentage and total. -/
def updatePositionPrice (p : Position) (current_price : ℚ) : Position :=
  let ppu := pnlPerUnit p current_price
  { p with
      current_price := current_price
      unrealized_pnl := ppu * p.quantity
      unrealized_pnl_pct := ppu / p.entry_price * 100
      total_pnl := ppu * p.quantity + p.realized_pnl }

/-- `PositionManager.close_position` restricted to one position. -/
def closePosition (p : Position) (exit_price : ℚ) : Position :=
  let final_pnl := pnlPerUnit p exit_price * p.quantity
  { p with
      current_price := exit_price
      unrealized_pnl := 0
      unrealized_pnl_pct := 0
      realized_pnl := p.realized_pnl + final_pnl
      total_pnl := p.realized_pnl + final_pnl
      status := PositionStatus.CLOSED
      quantity := 0 }

/-- `PositionManager.decrease_position` restricted to one position:
full close when `reduce_quantity ≥ quantity`, otherwise realize the P&L of
the closed portion, shrink the quantity, mark PARTIALLY_CLOSED and
recompute unrealized P&L at the fill price. -/
def decreasePosition (p : Position) (reduce_quantity price : ℚ) : Position :=
  if p.quantity ≤ reduce_quantity then closePosition p price
  else
    let pnl := pnlPerUnit p price * reduce_quantity
    let p₁ :=
      { p with
          quantity := p.quantity - reduce_quantity
          realized_pnl := p.realized_pnl + pnl
          current_price := price
          status := PositionStatus.PARTIALLY_CLOSED }
    updatePositionPrice p₁ price

/-! ## Signal fusion (`src/agents/strategy/signal_fusion.py`)

The fusion `Signal` dataclass carries a timestamp used only through
`TimeDecayFusion.calculate_time_weight`, which computes the real number
`0.5^(age_minutes / half_life_minutes)`; that weight is abstracted here as
a parameter `tw : FSignal → ℚ`.  Likewise `BayesianFusion.get_agent_weight`
(an exponentially decayed mean over the accuracy history) is abstracted as
`baseW : String → ℚ`. -/

/-- The fusion `Signal` dataclass (fields relevant to fusion). -/
structure FSignal where
  agent_type : String
  symbol : String
  signal : SignalType
  confidence : ℚ
  deriving DecidableEq, Repr

/-- Python dict insertion `d[k] = v`: update in place when the key exists,
else append. -/
def dictInsert (k : String) (v : ℚ) : List (String × ℚ) → List (String × ℚ)
  | [] => [(k, v)]
  | (k₀, v₀) :: rest =>
      if k₀ = k then (k₀, v) :: rest else (k₀, v₀) :: dictInsert k v rest

/-- Python `d.get(k, 0.0)`. -/
def dictGet (d : List (String × ℚ)) (k : String) : ℚ := (d.lookup k).getD 0

/-- The `agent_weights` dict: for each signal,
`agent_weights[sig.agent_type] = get_agent_weight(sig.agent_type) * sig.confidence`.
A later signal of the same agent class overwrites the earlier entry. -/
def buildAgentWeights (baseW : String → ℚ) (signals : List FSignal) :
    List (String × ℚ) :=
  signals.foldl
    (fun d s => dictInsert s.agent_type (baseW s.agent_type * s.confidence) d) []

/-- Weight normalization: divide every value by the total when the total is
positive, else leave the dict unchanged. -/
def normalizeWeights (d : List (String × ℚ)) : List (String × ℚ) :=
  let total := (d.map (fun kv => kv.2)).sum
  if 0 < total then d.map (fun kv => (kv.1, kv.2 / total)) else d

/-- A fusion outcome: the emitted direction and its confidence (the dict
returned by the Python `fuse_signals` methods, restricted to the fields the
hybrid combiner reads). -/
structure FusionResult where
  signal : SignalType
  confidence : ℚ
  deriving DecidableEq, Repr

/-- The BUY/SELL/HOLD thresholding shared by the weighted-posterior and
time-decay policies. -/
def decideScores (buy_score sell_score : ℚ) : FusionResult :=
  if buy_score > sell_score ∧ buy_score > 0.3 then ⟨SignalType.BUY, buy_score⟩
  else if sell_score > buy_score ∧ sell_score > 0.3 then
    ⟨SignalType.SELL, sell_score⟩
  else ⟨SignalType.HOLD, max buy_score sell_score⟩

/-- The weighted-vote loop of `BayesianFusion.fuse_signals`: every signal
adds `agent_weights.get(sig.agent_type, 0.0)` to the score of its
direction. -/
def bayesianScores (baseW : String → ℚ) (signals : List FSignal) : ℚ × ℚ :=
  let w := normalizeWeights (buildAgentWeights baseW signals)
  (((signals.filter (fun s => s.signal == SignalType.BUY)).map
      (fun s => dictGet w s.agent_type)).sum,
   ((signals.filter (fun s => s.signal == SignalType.SELL)).map
      (fun s => dictGet w s.agent_type)).sum)

/-- `BayesianFusion.fuse_signals`. -/
def BayesianFusion.fuse_signals (baseW : String → ℚ)
    (signals : List FSignal) : FusionResult :=
  if signals.isEmpty then ⟨SignalType.HOLD, 0⟩
  else
    let scores := bayesianScores baseW signals
    decideScores scores.1 scores.2

/-- `np.mean` over rationals (the callers only apply it to non-empty
lists when `min_agreement > 0`). -/
def listMean (l : List ℚ) : ℚ := l.sum / l.length

/-- `ConsensusStrategy.fuse_signals` with explicit thresholds
(constructor defaults 0.6 / 0.6). -/
def ConsensusStrategy.fuse_signals (min_confidence min_agreement : ℚ)
    (signals : List FSignal) : FusionResult :=
  if signals.isEmpty then ⟨SignalType.HOLD, 0⟩
  else
    let strong := signals.filter (fun s => min_confidence ≤ s.confidence)
    if strong.isEmpty then ⟨SignalType.HOLD, 0⟩
    else
      let buys := strong.filter (fun s => s.signal == SignalType.BUY)
      let sells := strong.filter (fun s => s.signal == SignalType.SELL)
      let total : ℚ := strong.length
      let buy_agreement := (buys.length : ℚ) / total
      let sell_agreement := (sells.length : ℚ) / total
      if min_agreement ≤ buy_agreement then
        ⟨SignalType.BUY, listMean (buys.map (fun s => s.confidence))⟩
      else if min_agreement ≤ sell_agreement then
        ⟨SignalType.SELL, listMean (sells.map (fun s => s.confidence))⟩
      else ⟨SignalType.HOLD, 0⟩

/-- `TimeDecayFusion.fuse_signals`: per-signal weight
`tw s * s.confidence`, scores normalized by the total weight when it is
positive. -/
def TimeDecayFusion.fuse_signals (tw : FSignal → ℚ)
    (signals : List FSignal) : FusionResult :=
  if signals.isEmpty then ⟨SignalType.HOLD, 0⟩
  else
    let ws := signals.map (fun s => (s, tw s * s.confidence))
    let total := (ws.map (fun p => p.2)).sum
    let buyRaw := ((ws.filter (fun p => p.1.signal == SignalType.BUY)).map
      (fun p => p.2)).sum
    let sellRaw := ((ws.filter (fun p => p.1.signal == SignalType.SELL)).map
      (fun p => p.2)).sum
    let buy_score := if 0 < total then buyRaw / total else buyRaw
    let sell_score := if 0 < total then sellRaw / total else sellRaw
    decideScores buy_score sell_score

/-- CPython `max(iterable, key=f)`: the first element whose key is maximal
(a later element replaces the current best only when strictly greater). -/
def pyMaxFirst (dflt : SignalType) : List (SignalType × ℚ) → SignalType
  | [] => dflt
  | x :: xs => (xs.foldl (fun best y => if best.2 < y.2 then y else best) x).1

/-- `HybridFusion.fuse_signals`: run the three policies, sum each
policy's confidence onto its voted direction in the dict
`{BUY: _, SELL: _, HOLD: _}` (insertion order BUY, SELL, HOLD), take
`max(signal_scores, key=signal_scores.get)` and divide its score by 3. -/
def HybridFusion.fuse_signals (baseW : String → ℚ) (tw : FSignal → ℚ)
    (signals : List FSignal) : FusionResult :=
  if signals.isEmpty then ⟨SignalType.HOLD, 0⟩
  else
    let b := BayesianFusion.fuse_signals baseW signals
    let c := ConsensusStrategy.fuse_signals 0.6 0.6 signals
    let t := TimeDecayFusion.fuse_signals tw signals
    let votes := [(b.signal, b.confidence), (c.signal, c.confidence),
      (t.signal, t.confidence)]
    let score : SignalType → ℚ := fun d =>
      ((votes.filter (fun v => v.1 == d)).map (fun v => v.2)).sum
    let final_signal := pyMaxFirst SignalType.HOLD
      [(SignalType.BUY, score SignalType.BUY),
       (SignalType.SELL, score SignalType.SELL),
       (SignalType.HOLD, score SignalType.HOLD)]
    ⟨final_signal, score final_signal / 3⟩

/-! ## Strategy decision (`src/agents/strategy/agent.py`) -/

/-- Conversion of a fused direction to an order side.  `TradeIntent.side`
is an `OrderSide`, which has no HOLD member; HOLD is filtered out before
the conversion can happen. -/
def signalToSide : SignalType → Option OrderSide
  | SignalType.BUY => some OrderSide.BUY
  | SignalType.SELL => some OrderSide.SELL
  | SignalType.HOLD => none

/-- The decision tail of `StrategyAgent._make_decision` together with the
confidence normalization of `_generate_trade_intent`: skip when the fused
confidence is below `min_confidence`, skip HOLD, otherwise publish the
side and `min(confidence, 1.0)`.  `none` means nothing is published. -/
def makeDecision (min_confidence : ℚ) (fusion : FusionResult) :
    Option (OrderSide × ℚ) :=
  if fusion.confidence < min_confidence then none
  else if fusion.signal = SignalType.HOLD then none
  else
    match signalToSide fusion.signal with
    | some side => some (side, min fusion.confidence 1)
    | none => none

/-! ## Rejected-order handling (`src/agents/execution/agent.py`) -/

/-- The fields of a protocol `Order` message used on the rejected path. -/
structure OrderMsg where
  correlation_id : Option String
  exchange : String
  symbol : String
  deriving DecidableEq, Repr

/-- The fields of the executor's `OrderExecution` record used on the
rejected path. -/
structure OrderExecutionRec where
  order_id : String
  symbol : String
  side : String
  status : ExecOrderStatus
  deriving DecidableEq, Repr

/-- A protocol `ExecutionReport` message. -/
structure ExecReportMsg where
  source_agent : String
  order_id : String
  exchange : String
  symbol : String
  side : OrderSide
  status : ProtocolOrderStatus
  filled_quantity : ℚ
  average_price : ℚ
  total_value : ℚ
  fee : ℚ
  fee_currency : String
  deriving DecidableEq, Repr

/-- Python `str.upper()` (ASCII, as used on `"buy"`/`"sell"` sides). -/
def pyUpper (s : String) : String := String.mk (s.data.map Char.toUpper)

/-- Pydantic coercion of a string into `protocol.OrderSide`. -/
def orderSideOfString (s : String) : Option OrderSide :=
  if s = "BUY" then some OrderSide.BUY
  else if s = "SELL" then some OrderSide.SELL
  else none

/-- Pydantic construction of an `ExecutionReport`: the `side` and `status`
strings must coerce into their enums, otherwise a `ValidationError` is
raised (`none`). -/
def mkExecutionReport (source_agent order_id exchange symbol : String)
    (sideStr statusStr : String)
    (filled_quantity average_price total_value fee : ℚ)
    (fee_currency : String) : Option ExecReportMsg :=
  match orderSideOfString sideStr, protocolOrderStatusOfString statusStr with
  | some side, some status =>
      some ⟨source_agent, order_id, exchange, symbol, side, status,
        filled_quantity, average_price, total_value, fee, fee_currency⟩
  | _, _ => none

/-- `ExecutionAgent._process_rejected_order`.  The `try` block constructs
an `ExecutionReport` with `status="REJECTED"`, `filled_quantity=0.0` and
publishes it on `execution.report`; a `ValidationError` raised by the
construction is caught by the `except` and only logged, so nothing is
published.  Afterwards the order is removed from `pending_orders` under
the key `order.correlation_id or str(uuid.uuid4())` (`freshId` stands for
the newly drawn uuid, assumed not to be a key of the registry).
Returns (published execution reports, remaining pending registry). -/
def processRejectedOrder (pending : List (String × OrderMsg))
    (order : OrderMsg) (execution : OrderExecutionRec) (freshId : String) :
    List ExecReportMsg × List (String × OrderMsg) :=
  let published :=
    match mkExecutionReport "execution_agent" execution.order_id
      order.exchange execution.symbol (pyUpper execution.side) "REJECTED"
      0 0 0 0 "USDT" with
    | some msg => [msg]
    | none => []
  let order_id := order.correlation_id.getD freshId
  (published, pending.filter (fun kv => kv.1 != order_id))

/-! ## Trade-intent rejection path (`src/agents/risk_manager/agent.py`) -/

/-- A protocol `RiskAssessment` message.  Required fields:
`source_agent`, `trade_intent_id`, `symbol`, `approved`, `risk_score`,
`position_size`, `var_estimate`, `max_loss`; `rejection_reason` is
optional. -/
structure RiskAssessmentMsg where
  source_agent : String
  trade_intent_id : String
  symbol : String
  approved : Bool
  risk_score : ℚ
  position_size : ℚ
  var_estimate : ℚ
  max_loss : ℚ
  rejection_reason : Option (List RejectReason)
  deriving DecidableEq, Repr

/-- Pydantic construction of a `RiskAssessment` message: every required
field must be supplied (`none` = the keyword was omitted at the call site)
and `risk_score` must satisfy its `ge=0, le=1` constraint; any violation
raises a `ValidationError`, modelled by `none`. -/
def mkRiskAssessmentMessage (source_agent trade_intent_id symbol : Option String)
    (approved : Option Bool) (risk_score : Option ℚ)
    (position_size var_estimate max_loss : Option ℚ)
    (rejection_reason : Option (List RejectReason)) : Option RiskAssessmentMsg :=
  match source_agent, trade_intent_id, symbol, approved, risk_score,
      position_size, var_estimate, max_loss with
  | some sa, some tid, some sym, some ap, some rs, some ps, some ve, some ml =>
      if 0 ≤ rs ∧ rs ≤ 1 then
        some ⟨sa, tid, sym, ap, rs, ps, ve, ml, rejection_reason⟩
      else none
  | _, _, _, _, _, _, _, _ => none

/-- The rejection branch of `RiskManagerAgent._handle_trade_intent`:
construct `RiskAssessmentMessage(symbol=…, risk_score=…, approved=False,
rejection_reason=…, var_estimate=…, metadata=…)` — omitting the required
`source_agent`, `trade_intent_id`, `position_size` and `max_loss` keywords —
and publish it on `trade.rejection` with priority 7.  The whole handler
body sits in a `try` whose `except` swallows any exception, so on a
`ValidationError` nothing is published.  Returns the list of published
(topic, priority, message) triples. -/
def publishTradeRejection (symbol : String)
    (assessment : TradeRiskAssessment) : List (String × ℕ × RiskAssessmentMsg) :=
  match mkRiskAssessmentMessage none none (some symbol) (some false)
      (some assessment.risk_score) none (some assessment.var_contribution)
      none assessment.rejection_reason with
  | some msg => [("trade.rejection", 7, msg)]
  | none => []

/-! ## Price resolution (`src/agents/risk_manager/agent.py`, lines 199-215) -/

/-- The hardcoded `fallback_prices` table with its `.get(symbol, 1000.0)`
default. -/
def fallbackPrices (symbol : String) : ℚ :=
  if symbol = "BTC/USDT" then 50000
  else if symbol = "ETH/USDT" then 2500
  else if symbol = "SOL/USDT" then 150
  else 1000

/-- Price resolution as implemented in `_handle_trade_intent`: start from
`message.expected_price`; when that is falsy (0.0 or None) go directly to
the hardcoded fallback table and log a warning.  The time-series store is
never consulted — the function has no store input at all.  Returns
(price, warning logged). -/
def resolveCurrentPrice (expected_price : ℚ) (symbol : String) : ℚ × Bool :=
  if expected_price == 0 then (fallbackPrices symbol, true)
  else (expected_price, false)

/-- The price fallback chain as the specification words it (intent price,
then the latest known price from the time-series store, then a configured
fallback with a warning); stated only to exhibit the divergence of
`resolveCurrentPrice` from it. -/
def specResolveCurrentPrice (expected_price : ℚ) (storeLast : Option ℚ)
    (fallback : ℚ) : ℚ × Bool :=
  if expected_price ≠ 0 then (expected_price, false)
  else
    match storeLast with
    | some p => (p, false)
    | none => (fallback, true)

/-! ## Message serialization (`src/agents/base/protocol.py`)

`serialize_message` is `model_dump(mode="json")`: a dict of JSON-compatible
values (enums as their string values, datetimes as ISO-8601 strings, floats
as numbers, nested models as dicts, `None` as null).  `deserialize_message`
dispatches on the `"type"` key and rebuilds the message class, with
pydantic validating required fields, enum values and the `ge=0, le=1`
bound on `confidence`. -/

/-- JSON values.  `jdt n` stands for the ISO-8601 rendering of the datetime
with timestamp `n`; the rendering is injective, so it is kept abstract. -/
inductive JValue
  | jnull
  | jstr (s : String)
  | jnum (q : ℚ)
  | jbool (b : Bool)
  | jdt (n : ℕ)
  | jarr (l : List JValue)
  | jobj (l : List (String × JValue))

/-- A `TradingSignal` message (`protocol.TradingSignal`): the base-message
fields followed by the signal fields. -/
structure TradingSignalMsg where
  version : String
  timestamp : ℕ
  source_agent : String
  correlation_id : Option String
  metadata : List (String × JValue)
  agent_type : String
  symbol : String
  signal : SignalType
  confidence : ℚ
  price_target : Option ℚ
  stop_loss : Option ℚ
  take_profit : Option ℚ
  reasoning : Option String
  indicators : List (String × ℚ)

/-- A `TradeIntent` message (`protocol.TradeIntent`): the base-message
fields followed by the intent fields. -/
structure TradeIntentMsg where
  version : String
  timestamp : ℕ
  source_agent : String
  correlation_id : Option String
  metadata : List (String × JValue)
  symbol : String
  side : OrderSide
  quantity : ℚ
  expected_price : ℚ
  signals : List TradingSignalMsg
  strategy_name : String
  confidence : ℚ

/-- Enum value of a `SignalType`. -/
def signalTypeStr : SignalType → String
  | SignalType.BUY => "BUY"
  | SignalType.SELL => "SELL"
  | SignalType.HOLD => "HOLD"

/-- Pydantic coercion of a string into `SignalType`. -/
def signalTypeOfString (s : String) : Option SignalType :=
  if s = "BUY" then some SignalType.BUY
  else if s = "SELL" then some SignalType.SELL
  else if s = "HOLD" then some SignalType.HOLD
  else none

/-- Enum value of an `OrderSide`. -/
def orderSideStr : OrderSide → String
  | OrderSide.BUY => "BUY"
  | OrderSide.SELL => "SELL"

/-- JSON dump of an optional string (`None` → null). -/
def jOptStr : Option String → JValue
  | none => JValue.jnull
  | some s => JValue.jstr s

/-- JSON dump of an optional float (`None` → null). -/
def jOptNum : Option ℚ → JValue
  | none => JValue.jnull
  | some q => JValue.jnum q

/-- `model_dump(mode="json")` of a `TradingSignal`. -/
def serializeSignal (s : TradingSignalMsg) : JValue :=
  JValue.jobj
    [("version", JValue.jstr s.version),
     ("type", JValue.jstr "signal"),
     ("timestamp", JValue.jdt s.timestamp),
     ("source_agent", JValue.jstr s.source_agent),
     ("correlation_id", jOptStr s.correlation_id),
     ("metadata", JValue.jobj s.metadata),
     ("agent_type", JValue.jstr s.agent_type),
     ("symbol", JValue.jstr s.symbol),
     ("signal", JValue.jstr (signalTypeStr s.signal)),
     ("confidence", JValue.jnum s.confidence),
     ("price_target", jOptNum s.price_target),
     ("stop_loss", jOptNum s.stop_loss),
     ("take_profit", jOptNum s.take_profit),
     ("reasoning", jOptStr s.reasoning),
     ("indicators", JValue.jobj (s.indicators.map
       (fun kv => (kv.1, JValue.jnum kv.2))))]

/-- `serialize_message` on a `TradeIntent`. -/
def serialize_message (i : TradeIntentMsg) : JValue :=
  JValue.jobj
    [("version", JValue.jstr i.version),
     ("type", JValue.jstr "trade.intent"),
     ("timestamp", JValue.jdt i.timestamp),
     ("source_agent", JValue.jstr i.source_agent),
     ("correlation_id", jOptStr i.correlation_id),
     ("metadata", JValue.jobj i.metadata),
     ("symbol", JValue.jstr i.symbol),
     ("side", JValue.jstr (orderSideStr i.side)),
     ("quantity", JValue.jnum i.quantity),
     ("expected_price", JValue.jnum i.expected_price),
     ("signals", JValue.jarr (i.signals.map serializeSignal)),
     ("strategy_name", JValue.jstr i.strategy_name),
     ("confidence", JValue.jnum i.confidence)]

/-- Parse a JSON object. -/
def asObj : JValue → Option (List (String × JValue))
  | JValue.jobj l => some l
  | _ => none

/-- Parse a JSON array. -/
def asArr : JValue → Option (List JValue)
  | JValue.jarr l => some l
  | _ => none

/-- Parse a string. -/
def asStr : JValue → Option String
  | JValue.jstr s => some s
  | _ => none

/-- Parse a float. -/
def asNum : JValue → Option ℚ
  | JValue.jnum q => some q
  | _ => none

/-- Parse a datetime (ISO-8601 string). -/
def asDt : JValue → Option ℕ
  | JValue.jdt n => some n
  | _ => none

/-- Parse an optional string. -/
def asOptStr : JValue → Option (Option String)
  | JValue.jnull => some none
  | JValue.jstr s => some (some s)
  | _ => none

/-- Parse an optional float. -/
def asOptNum : JValue → Option (Option ℚ)
  | JValue.jnull => some none
  | JValue.jnum q => some (some q)
  | _ => none

/-- A required pydantic field: the key must be present and parse. -/
def reqField (l : List (String × JValue)) (k : String)
    (dec : JValue → Option α) : Option α :=
  (l.lookup k).bind dec

/-- A pydantic field with a default: an absent key yields the default, a
present key must parse. -/
def optField (l : List (String × JValue)) (k : String)
    (dec : JValue → Option α) (dflt : α) : Option α :=
  match l.lookup k with
  | none => some dflt
  | some v => dec v

/-- Parse the `indicators` dict (`Dict[str, float]`). -/
def decodeIndicators : List (String × JValue) → Option (List (String × ℚ))
  | [] => some []
  | (k, v) :: rest => do
      let q ← asNum v
      let tail ← decodeIndicators rest
      some ((k, q) :: tail)

/-- Pydantic validation of a `TradingSignal` from a JSON object: every
field is parsed independently (pydantic validates all fields and raises if
any fails), the `type` literal must match, and `confidence` must satisfy
`ge=0, le=1`.  `timestamp` has `default_factory=datetime.utcnow`;
serialized input always carries it, and the model treats it as required to
stay deterministic. -/
def deserializeSignal (v : JValue) : Option TradingSignalMsg :=
  match asObj v with
  | none => none
  | some l =>
    match optField l "type" asStr "signal", optField l "version" asStr "1.0",
        reqField l "timestamp" asDt, reqField l "source_agent" asStr,
        optField l "correlation_id" asOptStr none,
        optField l "metadata" asObj [],
        reqField l "agent_type" asStr, reqField l "symbol" asStr,
        (reqField l "signal" asStr).bind signalTypeOfString,
        reqField l "confidence" asNum,
        optField l "price_target" asOptNum none,
        optField l "stop_loss" asOptNum none,
        optField l "take_profit" asOptNum none,
        optField l "reasoning" asOptStr none,
        (optField l "indicators" asObj []).bind decodeIndicators with
    | some ty, some version, some timestamp, some source_agent,
      some correlation_id, some metadata, some agent_type, some symbol,
      some signal, some confidence, some price_target, some stop_loss,
      some take_profit, some reasoning, some indicators =>
        if ty = "signal" then
          if 0 ≤ confidence ∧ confidence ≤ 1 then
            some ⟨version, timestamp, source_agent, correlation_id, metadata,
              agent_type, symbol, signal, confidence, price_target, stop_loss,
              take_profit, reasoning, indicators⟩
          else none
        else none
    | _, _, _, _, _, _, _, _, _, _, _, _, _, _, _ => none

/-- Parse a list of `TradingSignal` objects. -/
def decodeSignals : List JValue → Option (List TradingSignalMsg)
  | [] => some []
  | v :: rest => do
      let s ← deserializeSignal v
      let tail ← decodeSignals rest
      some (s :: tail)

/-- `deserialize_message` on the `trade.intent` branch of the type map:
dispatch on `data.get("type")` and rebuild `TradeIntent(**data)` with
pydantic validation; every field is parsed independently and the
`confidence` bound `ge=0, le=1` is re-checked. -/
def deserialize_message (v : JValue) : Option TradeIntentMsg :=
  match asObj v with
  | none => none
  | some l =>
    match reqField l "type" asStr, optField l "version" asStr "1.0",
        reqField l "timestamp" asDt, reqField l "source_agent" asStr,
        optField l "correlation_id" asOptStr none,
        optField l "metadata" asObj [],
        reqField l "symbol" asStr,
        (reqField l "side" asStr).bind orderSideOfString,
        reqField l "quantity" asNum, reqField l "expected_price" asNum,
        (optField l "signals" asArr []).bind decodeSignals,
        reqField l "strategy_name" asStr, reqField l "confidence" asNum with
    | some ty, some version, some timestamp, some source_agent,
      some correlation_id, some metadata, some symbol, some side,
      some quantity, some expected_price, some signals, some strategy_name,
      some confidence =>
        if ty = "trade.intent" then
          if 0 ≤ confidence ∧ confidence ≤ 1 then
            some ⟨version, timestamp, source_agent, correlation_id, metadata,
              symbol, side, quantity, expected_price, signals, strategy_name,
              confidence⟩
          else none
        else none
    | _, _, _, _, _, _, _, _, _, _, _, _, _ => none

/-- The invariant pydantic enforces on every constructed `TradingSignal`:
`confidence` has `Field(ge=0.0, le=1.0)`. -/
def TradingSignalMsg.valid (s : TradingSignalMsg) : Prop :=
  0 ≤ s.confidence ∧ s.confidence ≤ 1

/-- The invariant pydantic enforces on every constructed `TradeIntent`. -/
def TradeIntentMsg.valid (i : TradeIntentMsg) : Prop :=
  0 ≤ i.confidence ∧ i.confidence ≤ 1 ∧
    ∀ s ∈ i.signals, s.valid

/-- Summed confidence the three policies give direction `d` (a policy that
voted for `d` contributes its confidence, the others contribute 0). -/
def hybridScore (baseW : String → ℚ) (tw : FSignal → ℚ)
    (signals : List FSignal) (d : SignalType) : ℚ :=
  (if (BayesianFusion.fuse_signals baseW signals).signal = d then
    (BayesianFusion.fuse_signals baseW signals).confidence else 0) +
  (if (ConsensusStrategy.fuse_signals 0.6 0.6 signals).signal = d then
    (ConsensusStrategy.fuse_signals 0.6 0.6 signals).confidence else 0) +
  (if (TimeDecayFusion.fuse_signals tw signals).signal = d then
    (TimeDecayFusion.fuse_signals tw signals).confidence else 0)

/-- The direction the hybrid policy emits: the first maximal score in the
iteration order BUY, SELL, HOLD — ties break toward BUY, then SELL. -/
def hybridWinner (baseW : String → ℚ) (tw : FSignal → ℚ)
    (signals : List FSignal) : SignalType :=
  let sb := hybridScore baseW tw signals SignalType.BUY
  let ss := hybridScore baseW tw signals SignalType.SELL
  let sh := hybridScore baseW tw signals SignalType.HOLD
  if sb < ss then (if ss < sh then SignalType.HOLD else SignalType.SELL)
  else (if sb < sh then SignalType.HOLD else SignalType.BUY)

/-- A zero-confidence BUY signal: every policy votes HOLD with
confidence 0 on it, so all three direction scores tie at 0. -/
def tieSignal : FSignal :=
  ⟨"technical_analysis", "BTC/USDT", SignalType.BUY, 0⟩

/-- A full-confidence BUY signal from the technical-analysis agent class. -/
def dupSignal : FSignal :=
  ⟨"technical_analysis", "BTC/USDT", SignalType.BUY, 1⟩

/-! ## Shared concrete inputs -/

/-- A LONG position of quantity 0.1 at entry 50000 (the worked partial-close
example). -/
def samplePosition : Position :=
  { position_id := "BTC/USDT_long_1"
    symbol := "BTC/USDT"
    side := PositionSide.LONG
    entry_price := 50000
    current_price := 50000
    quantity := 0.1
    initial_quantity := 0.1
    unrealized_pnl := 0
    unrealized_pnl_pct := 0
    realized_pnl := 0
    total_pnl := 0
    stop_loss := none
    take_profit := none
    status := PositionStatus.OPEN }

/-- A concrete `TradingSignal` message. -/
def sampleSignal : TradingSignalMsg :=
  { version := "1.0"
    timestamp := 1700000000
    source_agent := "technical_analysis"
    correlation_id := none
    metadata := []
    agent_type := "technical_analysis"
    symbol := "BTC/USDT"
    signal := SignalType.BUY
    confidence := 0.7
    price_target := some 51000
    stop_loss := none
    take_profit := none
    reasoning := some "rsi oversold"
    indicators := [("rsi", 28)] }

/-- A concrete `TradeIntent` message carrying `sampleSignal`. -/
def sampleIntent : TradeIntentMsg :=
  { version := "1.0"
    timestamp := 1700000100
    source_agent := "strategy_agent"
    correlation_id := some "corr-1"
    metadata := [("fusion_strategy", JValue.jstr "hybrid")]
    symbol := "BTC/USDT"
    side := OrderSide.BUY
    quantity := 0
    expected_price := 51000
    signals := [sampleSignal]
    strategy_name := "hybrid"
    confidence := 0.8 }

/-- An approved order whose placement the exchange rejects. -/
def sampleRejectedOrder : OrderMsg :=
  { correlation_id := some "ord-1", exchange := "binance", symbol := "BTC/USDT" }

/-- The executor's result for that placement: status REJECTED. -/
def sampleRejectedExecution : OrderExecutionRec :=
  { order_id := "ex-1", symbol := "BTC/USDT", side := "buy",
    status := ExecOrderStatus.REJECTED }

/-! ## Theorems -/

/-- C10: `KellyCriterion.calculate` is total and never divides by zero:
any input with `win_probability ≤ 0`, `win_probability ≥ 1` or
`reward_risk_ratio ≤ 0` returns the minimum fraction 0.01 before the Kelly
formula is evaluated; otherwise the Kelly fraction is clamped to
[0.01, 0.25] and halved afterwards when `win_probability < 0.5`; the
result always lies in (0, 0.25], and at `win_probability = 0.4`,
`reward_risk_ratio = 1` it is 0.005, below the 0.01 lower clamp. -/
theorem kelly_calculate_total_and_bounded :
    (∀ p b bal : ℚ,
      ((p ≤ 0 ∨ 1 ≤ p ∨ b ≤ 0) → defaultKelly.calculate p b bal = 0.01) ∧
      (0 < p → p < 1 → 0 < b →
        defaultKelly.calculate p b bal =
          (if p < 0.5 then min 0.25 (max 0.01 ((p * b - (1 - p)) / b)) * 0.5
           else min 0.25 (max 0.01 ((p * b - (1 - p)) / b)))) ∧
      0 < defaultKelly.calculate p b bal ∧
      defaultKelly.calculate p b bal ≤ 0.25) ∧
    defaultKelly.calculate 0.4 1 1000 = 0.005 := by
  have hmem : ∀ p b : ℚ, (0.01 : ℚ) ≤ min 0.25 (max 0.01 ((p * b - (1 - p)) / b)) :=
    fun p b => le_min (by norm_num) (le_max_left _ _)
  have hmax : ∀ p b : ℚ, min 0.25 (max 0.01 ((p * b - (1 - p)) / b)) ≤ 0.25 :=
    fun p b => min_le_left _ _
  constructor
  · intro p b bal
    refine ⟨?_, ?_, ?_, ?_⟩
    · intro h
      simp only [KellyCriterion.calculate, defaultKelly]
      rcases h with h | h | h
      · rw [if_pos (Or.inl h)]
      · rw [if_pos (Or.inr h)]
      · by_cases h₁ : p ≤ 0 ∨ 1 ≤ p
        · rw [if_pos h₁]
        · rw [if_neg h₁, if_pos h]
    · intro h₁ h₂ h₃
      simp only [KellyCriterion.calculate, defaultKelly]
      rw [if_neg (by push_neg; exact ⟨h₁, h₂⟩), if_neg (by push_neg; exact h₃)]
    · simp only [KellyCriterion.calculate, defaultKelly]
      split_ifs with h₁ h₂ h₃
      · norm_num
      · norm_num
      · have := hmem p b
        linarith
      · have := hmem p b
        linarith
    · simp only [KellyCriterion.calculate, defaultKelly]
      split_ifs with h₁ h₂ h₃
      · norm_num
      · norm_num
      · have h := hmem p b
        have h' := hmax p b
        linarith
      · exact hmax p b
  · simp only [KellyCriterion.calculate, defaultKelly]
    norm_num

/-- Instantiation of the Kelly theorem at `p = 0.6`, `b = 2`: the formula
branch applies and the result is the 0.25 cap. -/
theorem kelly_calculate_witness : defaultKelly.calculate 0.6 2 1000 = 0.25 := by
  have h := (kelly_calculate_total_and_bounded.1 0.6 2 1000).2.1
    (by norm_num) (by norm_num) (by norm_num)
  rw [h]
  norm_num

/-- C7: an opposite-side fill of quantity `q` strictly below the position's
quantity realizes `(fill − entry) × q` for a LONG ((entry − fill) × q for a
SHORT) into `realized_pnl`, decreases `quantity` by exactly `q`, and sets
the status to PARTIALLY_CLOSED. -/
theorem decrease_position_partial_close (p : Position) (q price : ℚ)
    (hq : q < p.quantity) :
    (p.side = PositionSide.LONG →
      (decreasePosition p q price).realized_pnl =
        p.realized_pnl + (price - p.entry_price) * q) ∧
    (p.side = PositionSide.SHORT →
      (decreasePosition p q price).realized_pnl =
        p.realized_pnl + (p.entry_price - price) * q) ∧
    (decreasePosition p q price).quantity = p.quantity - q ∧
    (decreasePosition p q price).status = PositionStatus.PARTIALLY_CLOSED := by
  unfold decreasePosition
  rw [if_neg (by linarith)]
  unfold updatePositionPrice pnlPerUnit
  refine ⟨?_, ?_, ?_, ?_⟩ <;> cases hs : p.side <;> simp [hs]

/-- Instantiation of the partial-close theorem at the worked example:
LONG 0.1 @ 50000 reduced by 0.05 @ 52000 gains realized P&L 100, retains
quantity 0.05 and is PARTIALLY_CLOSED. -/
theorem decrease_position_witness :
    (decreasePosition samplePosition 0.05 52000).realized_pnl = 100 ∧
    (decreasePosition samplePosition 0.05 52000).quantity = 0.05 ∧
    (decreasePosition samplePosition 0.05 52000).status =
      PositionStatus.PARTIALLY_CLOSED := by
  have h := decrease_position_partial_close samplePosition 0.05 52000
    (by norm_num [samplePosition])
  refine ⟨?_, ?_, h.2.2.2⟩
  · rw [h.1 rfl]
    norm_num [samplePosition]
  · rw [h.2.2.1]
    norm_num [samplePosition]

/-- C4: at the failing input (an intent with `expected_price = 0` while the
time-series store knows a last price of 49000 for BTC/USDT), the code jumps
straight to the hardcoded fallback table and returns 50000 with a warning —
the store is not an input of the computation at all — whereas the
documented chain would return the store's 49000 without a warning. -/
theorem price_fallback_skips_store :
    resolveCurrentPrice 0 "BTC/USDT" = (50000, true) ∧
    specResolveCurrentPrice 0 (some 49000) (fallbackPrices "BTC/USDT") =
      (49000, false) ∧
    (49000 : ℚ) ≠ 50000 := by
  refine ⟨rfl, rfl, by norm_num⟩

/-- C2: the rejection branch of `_handle_trade_intent` publishes nothing,
for every symbol and assessment: the `RiskAssessment` construction omits
the required `source_agent`, `trade_intent_id`, `position_size` and
`max_loss` fields, pydantic raises, and the handler's `except` swallows the
error before the publish can run. -/
theorem trade_rejection_never_published (symbol : String)
    (assessment : TradeRiskAssessment) :
    publishTradeRejection symbol assessment = [] := rfl

/-- C1: at the failing input (a rejected order with correlation id
"ord-1"), `_process_rejected_order` publishes no execution report at all —
`status="REJECTED"` is not a member of the protocol `OrderStatus` enum, so
the report construction raises and the `try` swallows it — although the
order is removed from the pending registry. -/
theorem rejected_order_report_never_published :
    processRejectedOrder [("ord-1", sampleRejectedOrder)]
      sampleRejectedOrder sampleRejectedExecution "fresh-uuid" = ([], []) ∧
    protocolOrderStatusOfString "REJECTED" = none := ⟨by decide, rfl⟩

/-- C8: whenever the strategy decision publishes, the published confidence
lies in [0, 1] (clamped by `min(confidence, 1.0)`) and the side is BUY or
SELL; a HOLD decision or a decision below `min_confidence` is never
published. -/
theorem published_intent_confidence_side (min_confidence : ℚ)
    (fusion : FusionResult) (h₀ : 0 ≤ min_confidence) :
    (∀ side conf, makeDecision min_confidence fusion = some (side, conf) →
      0 ≤ conf ∧ conf ≤ 1 ∧
        (side = OrderSide.BUY ∨ side = OrderSide.SELL)) ∧
    (fusion.signal = SignalType.HOLD →
      makeDecision min_confidence fusion = none) ∧
    (fusion.confidence < min_confidence →
      makeDecision min_confidence fusion = none) := by
  refine ⟨?_, ?_, ?_⟩
  · intro side conf h
    unfold makeDecision at h
    split_ifs at h with h₁ h₂
    have hge : min_confidence ≤ fusion.confidence := not_lt.mp h₁
    cases hs : fusion.signal with
    | HOLD => exact absurd hs h₂
    | BUY =>
        rw [hs] at h
        simp only [signalToSide, Option.some.injEq, Prod.mk.injEq] at h
        obtain ⟨hside, hconf⟩ := h
        subst hside
        subst hconf
        exact ⟨le_min (le_trans h₀ hge) one_pos.le, min_le_right _ _,
          Or.inl rfl⟩
    | SELL =>
        rw [hs] at h
        simp only [signalToSide, Option.some.injEq, Prod.mk.injEq] at h
        obtain ⟨hside, hconf⟩ := h
        subst hside
        subst hconf
        exact ⟨le_min (le_trans h₀ hge) one_pos.le, min_le_right _ _,
          Or.inr rfl⟩
  · intro h
    unfold makeDecision
    split_ifs <;> simp_all
  · intro h
    unfold makeDecision
    rw [if_pos h]

/-- Instantiation of the published-intent theorem at `min_confidence = 0.6`
and a fused BUY of raw confidence 1.2: the published confidence is the
clamped 1. -/
theorem published_intent_witness :
    (0 : ℚ) ≤ 1 ∧ (1 : ℚ) ≤ 1 ∧
      (OrderSide.BUY = OrderSide.BUY ∨ OrderSide.BUY = OrderSide.SELL) := by
  have h := published_intent_confidence_side 0.6 ⟨SignalType.BUY, 1.2⟩
    (by norm_num)
  refine h.1 OrderSide.BUY 1 ?_
  unfold makeDecision
  rw [if_neg (by norm_num)]
  simp [signalToSide]
  norm_num [min_def]

/-- C6: with the default thresholds, `validate_trade` approves exactly when
none of the five checks fires; each fired check adds its fixed delta
(0.3, 0.2, 0.3, 0.4, 0.2), the score is capped at 1, the VaR contribution
is `risk_amount × 1.65`, and the post-trade portfolio risk is
`current_portfolio_risk + risk_amount / account_balance`. -/
theorem validate_trade_characterization (symbol : String)
    (confidence position_size risk_amount reward_risk_ratio
     current_portfolio_risk account_balance : ℚ)
    (existing_positions : List ExistingPosition)
    (hb : 0 < account_balance) :
    let r := defaultValidator.validate_trade symbol confidence position_size
      risk_amount reward_risk_ratio current_portfolio_risk account_balance
      existing_positions
    (r.approved = true ↔
      ¬(confidence < 0.6) ∧ ¬(reward_risk_ratio < 1.5) ∧
      ¬(risk_amount / account_balance > 0.05) ∧
      ¬(current_portfolio_risk + risk_amount / account_balance > 0.20) ∧
      ¬(sameClassExposure symbol existing_positions / account_balance >
          0.30)) ∧
    r.risk_score = min 1
      ((if confidence < 0.6 then (0.3 : ℚ) else 0) +
       (if reward_risk_ratio < 1.5 then 0.2 else 0) +
       (if risk_amount / account_balance > 0.05 then 0.3 else 0) +
       (if current_portfolio_risk + risk_amount / account_balance > 0.20
        then 0.4 else 0) +
       (if sameClassExposure symbol existing_positions / account_balance >
          0.30 then 0.2 else 0)) ∧
    r.var_contribution = risk_amount * 1.65 ∧
    r.portfolio_risk_after =
      current_portfolio_risk + risk_amount / account_balance := by
  have h₅ : (existing_positions ≠ [] ∧
      sameClassExposure symbol existing_positions / account_balance >
        (0.30 : ℚ)) ↔
      (sameClassExposure symbol existing_positions / account_balance >
        (0.30 : ℚ)) := by
    constructor
    · intro h
      exact h.2
    · intro h
      refine ⟨?_, h⟩
      rintro rfl
      rw [show sameClassExposure symbol [] = 0 from rfl, zero_div] at h
      norm_num at h
  refine ⟨?_, ?_, rfl, rfl⟩
  · simp only [TradeValidator.validate_trade, defaultValidator, h₅]
    constructor
    · intro h
      split_ifs at h <;> simp_all
    · intro h
      split_ifs <;> simp_all
  · simp only [TradeValidator.validate_trade, defaultValidator, h₅]
    norm_num

/-- Instantiation of the validation theorem: a confident (0.8) trade with
R/R 2, risk 100 on balance 10000, no open portfolio risk and no existing
positions is approved with risk score 0. -/
theorem validate_trade_witness :
    (defaultValidator.validate_trade "BTC/USDT" 0.8 500 100 2 0 10000
      []).approved = true ∧
    (defaultValidator.validate_trade "BTC/USDT" 0.8 500 100 2 0 10000
      []).risk_score = 0 := by
  have h := validate_trade_characterization "BTC/USDT" 0.8 500 100 2 0 10000
    [] (by norm_num)
  constructor
  · rw [h.1]
    norm_num [sameClassExposure]
  · rw [h.2.1]
    norm_num [sameClassExposure]

/-- Constructor-level BEq reductions for `SignalType`, so that `simp` can
evaluate the fusion filters. -/
@[simp] theorem buy_beq_buy : (SignalType.BUY == SignalType.BUY) = true := rfl

/-- BEq reduction. -/
@[simp] theorem buy_beq_sell : (SignalType.BUY == SignalType.SELL) = false := rfl

/-- BEq reduction. -/
@[simp] theorem buy_beq_hold : (SignalType.BUY == SignalType.HOLD) = false := rfl

/-- BEq reduction. -/
@[simp] theorem sell_beq_buy : (SignalType.SELL == SignalType.BUY) = false := rfl

/-- BEq reduction. -/
@[simp] theorem sell_beq_sell : (SignalType.SELL == SignalType.SELL) = true := rfl

/-- BEq reduction. -/
@[simp] theorem sell_beq_hold : (SignalType.SELL == SignalType.HOLD) = false := rfl

/-- BEq reduction. -/
@[simp] theorem hold_beq_buy : (SignalType.HOLD == SignalType.BUY) = false := rfl

/-- BEq reduction. -/
@[simp] theorem hold_beq_sell : (SignalType.HOLD == SignalType.SELL) = false := rfl

/-- BEq reduction. -/
@[simp] theorem hold_beq_hold : (SignalType.HOLD == SignalType.HOLD) = true := rfl

/-- Propositional disequality of distinct `SignalType` constructors. -/
@[simp] theorem buy_eq_sell_iff : SignalType.BUY = SignalType.SELL ↔ False :=
  ⟨fun h => SignalType.noConfusion h, False.elim⟩

/-- Disequality reduction. -/
@[simp] theorem buy_eq_hold_iff : SignalType.BUY = SignalType.HOLD ↔ False :=
  ⟨fun h => SignalType.noConfusion h, False.elim⟩

/-- Disequality reduction. -/
@[simp] theorem sell_eq_buy_iff : SignalType.SELL = SignalType.BUY ↔ False :=
  ⟨fun h => SignalType.noConfusion h, False.elim⟩

/-- Disequality reduction. -/
@[simp] theorem sell_eq_hold_iff : SignalType.SELL = SignalType.HOLD ↔ False :=
  ⟨fun h => SignalType.noConfusion h, False.elim⟩

/-- Disequality reduction. -/
@[simp] theorem hold_eq_buy_iff : SignalType.HOLD = SignalType.BUY ↔ False :=
  ⟨fun h => SignalType.noConfusion h, False.elim⟩

/-- Disequality reduction. -/
@[simp] theorem hold_eq_sell_iff : SignalType.HOLD = SignalType.SELL ↔ False :=
  ⟨fun h => SignalType.noConfusion h, False.elim⟩

/-- Score of a three-vote list for direction `d` as a sum of conditionals. -/
theorem voteSum3 (x y z : SignalType × ℚ) (d : SignalType) :
    (([x, y, z].filter (fun v => v.1 == d)).map (fun v => v.2)).sum =
    (if x.1 = d then x.2 else 0) + (if y.1 = d then y.2 else 0) +
      (if z.1 = d then z.2 else 0) := by
  obtain ⟨x1, x2⟩ := x
  obtain ⟨y1, y2⟩ := y
  obtain ⟨z1, z2⟩ := z
  by_cases h1 : x1 = d <;> by_cases h2 : y1 = d <;> by_cases h3 : z1 = d <;>
    simp [List.filter_cons, h1, h2, h3] <;> ring

/-- Explicit form of the CPython `max` over the three-key score dict. -/
theorem pyMaxFirst3 (sb ss sh : ℚ) :
    pyMaxFirst SignalType.HOLD
      [(SignalType.BUY, sb), (SignalType.SELL, ss), (SignalType.HOLD, sh)] =
    (if sb < ss then
      (if ss < sh then SignalType.HOLD else SignalType.SELL)
     else
      (if sb < sh then SignalType.HOLD else SignalType.BUY)) := by
  unfold pyMaxFirst
  simp only [List.foldl_cons, List.foldl_nil]
  by_cases h1 : sb < ss
  · simp only [if_pos h1]
    by_cases h2 : ss < sh <;> simp [h2]
  · simp only [if_neg h1]
    by_cases h2 : sb < sh <;> simp [h2]

/-- C3 counterexample: on the single zero-confidence signal all three
hybrid direction scores tie at 0, and the hybrid policy emits BUY — not
HOLD, as the claimed tie-breaking would require. -/
theorem hybrid_tie_emits_buy :
    HybridFusion.fuse_signals (fun _ => 0.5) (fun _ => 1) [tieSignal] =
      ⟨SignalType.BUY, 0⟩ ∧
    hybridScore (fun _ => 0.5) (fun _ => 1) [tieSignal] SignalType.BUY =
      hybridScore (fun _ => 0.5) (fun _ => 1) [tieSignal] SignalType.HOLD ∧
    SignalType.BUY ≠ SignalType.HOLD := by
  have hbay : BayesianFusion.fuse_signals (fun _ => 0.5) [tieSignal] =
      ⟨SignalType.HOLD, 0⟩ := by
    norm_num [BayesianFusion.fuse_signals, bayesianScores, buildAgentWeights,
      normalizeWeights, dictInsert, dictGet, decideScores, tieSignal,
      List.lookup, List.filter]
  have hcon : ConsensusStrategy.fuse_signals 0.6 0.6 [tieSignal] =
      ⟨SignalType.HOLD, 0⟩ := by
    norm_num [ConsensusStrategy.fuse_signals, tieSignal, List.filter]
  have htd : TimeDecayFusion.fuse_signals (fun _ => 1) [tieSignal] =
      ⟨SignalType.HOLD, 0⟩ := by
    norm_num [TimeDecayFusion.fuse_signals, tieSignal, decideScores,
      List.filter]
  refine ⟨?_, ?_, by decide⟩
  · unfold HybridFusion.fuse_signals
    rw [if_neg (by simp)]
    dsimp only
    rw [hbay, hcon, htd]
    norm_num [pyMaxFirst, List.filter]
  · unfold hybridScore
    rw [hbay, hcon, htd]
    norm_num

/-- C3 amended: for every non-empty signal list the hybrid policy runs the
Bayesian, consensus and time-decay policies independently on the same
signals, sums for each direction the confidences of the policies that
voted for it, and emits a direction of maximal score with
`confidence = score / 3`; a tie for the highest score is broken toward the
first direction in the order BUY, SELL, HOLD (not toward HOLD). -/
theorem hybrid_fusion_argmax (baseW : String → ℚ) (tw : FSignal → ℚ)
    (signals : List FSignal) (h : signals ≠ []) :
    HybridFusion.fuse_signals baseW tw signals =
      ⟨hybridWinner baseW tw signals,
       hybridScore baseW tw signals (hybridWinner baseW tw signals) / 3⟩ ∧
    ∀ d : SignalType, hybridScore baseW tw signals d ≤
      hybridScore baseW tw signals (hybridWinner baseW tw signals) := by
  constructor
  · unfold HybridFusion.fuse_signals
    rw [if_neg (by simpa using h)]
    simp only [voteSum3, pyMaxFirst3]
    unfold hybridWinner hybridScore
    rfl
  · intro d
    unfold hybridWinner
    by_cases h1 : hybridScore baseW tw signals SignalType.BUY <
        hybridScore baseW tw signals SignalType.SELL
    · by_cases h2 : hybridScore baseW tw signals SignalType.SELL <
          hybridScore baseW tw signals SignalType.HOLD
      · simp only [if_pos h1, if_pos h2]
        cases d <;> linarith
      · simp only [if_pos h1, if_neg h2]
        cases d <;> linarith
    · by_cases h2 : hybridScore baseW tw signals SignalType.BUY <
          hybridScore baseW tw signals SignalType.HOLD
      · simp only [if_neg h1, if_pos h2]
        cases d <;> linarith
      · simp only [if_neg h1, if_neg h2]
        cases d <;> linarith

/-- Instantiation of the hybrid theorem on one unanimous full-confidence
BUY signal: all three policies vote BUY with confidence 1 and the hybrid
emits BUY with confidence 1. -/
theorem hybrid_fusion_witness :
    HybridFusion.fuse_signals (fun _ => 0.5) (fun _ => 1)
      [⟨"technical_analysis", "BTC/USDT", SignalType.BUY, 1⟩] =
      ⟨SignalType.BUY, 1⟩ := by
  have h := hybrid_fusion_argmax (fun _ => 0.5) (fun _ => 1)
    [⟨"technical_analysis", "BTC/USDT", SignalType.BUY, 1⟩] (by simp)
  rw [h.1]
  have hbay : BayesianFusion.fuse_signals (fun _ => 0.5)
      [⟨"technical_analysis", "BTC/USDT", SignalType.BUY, 1⟩] =
      ⟨SignalType.BUY, 1⟩ := by
    norm_num [BayesianFusion.fuse_signals, bayesianScores, buildAgentWeights,
      normalizeWeights, dictInsert, dictGet, decideScores, List.lookup,
      List.filter]
  have hcon : ConsensusStrategy.fuse_signals 0.6 0.6
      [⟨"technical_analysis", "BTC/USDT", SignalType.BUY, 1⟩] =
      ⟨SignalType.BUY, 1⟩ := by
    norm_num [ConsensusStrategy.fuse_signals, List.filter, listMean]
  have htd : TimeDecayFusion.fuse_signals (fun _ => 1)
      [⟨"technical_analysis", "BTC/USDT", SignalType.BUY, 1⟩] =
      ⟨SignalType.BUY, 1⟩ := by
    norm_num [TimeDecayFusion.fuse_signals, decideScores, List.filter]
  unfold hybridWinner hybridScore
  rw [hbay, hcon, htd]
  norm_num

/-- Inserting a fresh key appends it at the end of the dict. -/
theorem dictInsert_of_not_mem (k : String) (v : ℚ) (d : List (String × ℚ))
    (h : k ∉ d.map Prod.fst) : dictInsert k v d = d ++ [(k, v)] := by
  induction d with
  | nil => rfl
  | cons kv rest ih =>
      obtain ⟨k₀, v₀⟩ := kv
      simp only [List.map_cons, List.mem_cons] at h
      push_neg at h
      rw [dictInsert, if_neg (fun he => h.1 he.symm)]
      rw [ih h.2, List.cons_append]

/-- Building the agent-weight dict over signals with pairwise distinct
agent classes is a plain map (generalized over the accumulator). -/
theorem foldl_dictInsert_eq (baseW : String → ℚ) (signals : List FSignal) :
    ∀ d : List (String × ℚ),
      (signals.map (fun s => s.agent_type)).Nodup →
      (∀ s ∈ signals, s.agent_type ∉ d.map Prod.fst) →
      signals.foldl (fun d s =>
          dictInsert s.agent_type (baseW s.agent_type * s.confidence) d) d =
        d ++ signals.map
          (fun s => (s.agent_type, baseW s.agent_type * s.confidence)) := by
  induction signals with
  | nil => intro d _ _; simp
  | cons s rest ih =>
      intro d hnd hdisj
      rw [List.map_cons, List.nodup_cons] at hnd
      obtain ⟨hhead, htail⟩ := hnd
      simp only [List.foldl_cons]
      rw [dictInsert_of_not_mem _ _ _ (hdisj s (List.mem_cons_self _ _))]
      rw [ih (d ++ [(s.agent_type, baseW s.agent_type * s.confidence)])
        htail ?_]
      · simp
      · intro t ht
        simp only [List.map_append, List.mem_append, List.map_cons,
          List.map_nil, List.mem_singleton]
        rintro (hin | heq)
        · exact hdisj t (List.mem_cons_of_mem _ ht) hin
        · exact hhead (heq ▸ List.mem_map_of_mem (fun s => s.agent_type) ht)

/-- With pairwise distinct agent classes, the built dict is one entry per
signal in order. -/
theorem buildAgentWeights_eq_map (baseW : String → ℚ) (signals : List FSignal)
    (hnd : (signals.map (fun s => s.agent_type)).Nodup) :
    buildAgentWeights baseW signals =
      signals.map (fun s => (s.agent_type, baseW s.agent_type * s.confidence)) := by
  unfold buildAgentWeights
  simpa using foldl_dictInsert_eq baseW signals [] hnd (by simp)

/-- Lookup of a member signal's agent class in an agent-keyed map, under
distinct agent classes. -/
theorem lookup_map_of_nodup (f : FSignal → ℚ) (l : List FSignal)
    (hnd : (l.map (fun s => s.agent_type)).Nodup) :
    ∀ s ∈ l, List.lookup s.agent_type
      (l.map (fun t => (t.agent_type, f t))) = some (f s) := by
  induction l with
  | nil => intro s hs; cases hs
  | cons t rest ih =>
      rw [List.map_cons, List.nodup_cons] at hnd
      obtain ⟨hhead, htail⟩ := hnd
      intro s hs
      rcases List.mem_cons.mp hs with rfl | hmem
      · simp [List.lookup]
      · have hne : s.agent_type ≠ t.agent_type := by
          intro he
          exact hhead (he ▸ List.mem_map_of_mem (fun s => s.agent_type) hmem)
        have hbeq : (s.agent_type == t.agent_type) = false :=
          beq_eq_false_iff_ne.mpr hne
        simp only [List.map_cons, List.lookup, hbeq]
        exact ih htail s hmem

/-- Sum of nonnegative rationals is nonnegative. -/
theorem listSum_nonneg (l : List ℚ) (h : ∀ x ∈ l, 0 ≤ x) : 0 ≤ l.sum := by
  induction l with
  | nil => simp
  | cons a t ih =>
      have ha := h a (List.mem_cons_self _ _)
      have ht := ih (fun x hx => h x (List.mem_cons_of_mem _ hx))
      simp only [List.sum_cons]
      linarith

/-- A nonnegative list summing to at most zero is identically zero. -/
theorem listSum_zero_of_nonneg (l : List ℚ) (h : ∀ x ∈ l, 0 ≤ x)
    (hs : l.sum ≤ 0) : ∀ x ∈ l, x = 0 := by
  induction l with
  | nil => intro x hx; cases hx
  | cons a t ih =>
      have ha := h a (List.mem_cons_self _ _)
      have ht : ∀ x ∈ t, 0 ≤ x := fun x hx => h x (List.mem_cons_of_mem _ hx)
      have htsum : 0 ≤ t.sum := listSum_nonneg t ht
      simp only [List.sum_cons] at hs
      intro x hx
      rcases List.mem_cons.mp hx with rfl | hxt
      · linarith
      · exact ih ht (by linarith) x hxt

/-- Division through a list sum. -/
theorem listSum_map_div (l : List FSignal) (g : FSignal → ℚ) (T : ℚ) :
    (l.map (fun x => g x / T)).sum = (l.map g).sum / T := by
  induction l with
  | nil => simp
  | cons a t ih => simp [ih, add_div]

/-- Sums over two mutually exclusive filters are bounded by the total sum
of a nonnegative function. -/
theorem filter_pair_sum_le (p q : FSignal → Bool)
    (hpq : ∀ s, ¬(p s = true ∧ q s = true)) (g : FSignal → ℚ)
    (l : List FSignal) (h : ∀ s ∈ l, 0 ≤ g s) :
    ((l.filter p).map g).sum + ((l.filter q).map g).sum ≤ (l.map g).sum := by
  induction l with
  | nil => simp
  | cons s rest ih =>
      have hg := h s (List.mem_cons_self _ _)
      have ih' := ih (fun t ht => h t (List.mem_cons_of_mem _ ht))
      by_cases hp : p s = true
      · have hq : ¬(q s = true) := fun hq => hpq s ⟨hp, hq⟩
        simp [List.filter_cons, hp, hq]
        linarith
      · by_cases hq : q s = true
        · simp [List.filter_cons, hp, hq]
          linarith
        · simp [List.filter_cons, hp, hq]
          linarith

/-- C5 counterexample: two full-confidence BUY signals sharing the agent
class "technical_analysis" yield `buy_score + sell_score = 2` and a fused
confidence of 2 — the dict keyed by agent class keeps one normalized
weight 1, and both signals add it in the vote loop. -/
theorem bayesian_duplicate_agents_unbounded :
    (bayesianScores (fun _ => 0.5) [dupSignal, dupSignal]).1 +
      (bayesianScores (fun _ => 0.5) [dupSignal, dupSignal]).2 = 2 ∧
    (BayesianFusion.fuse_signals (fun _ => 0.5)
      [dupSignal, dupSignal]).confidence = 2 ∧
    ¬((2 : ℚ) ≤ 1) := by
  refine ⟨?_, ?_, by norm_num⟩
  all_goals
    norm_num [bayesianScores, BayesianFusion.fuse_signals, buildAgentWeights,
      normalizeWeights, dictInsert, dictGet, decideScores, dupSignal,
      List.lookup, List.filter]

/-- C5 amended: when the contributing signals carry pairwise distinct
agent classes (and weights and confidences are nonnegative), the
normalized weights do make `buy_score + sell_score ≤ 1` and the returned
confidence at most 1; the claimed bound fails only for lists that repeat
an agent class. -/
theorem bayesian_scores_bounded (baseW : String → ℚ) (signals : List FSignal)
    (hnd : (signals.map (fun s => s.agent_type)).Nodup)
    (hw : ∀ a, 0 ≤ baseW a)
    (hc : ∀ s ∈ signals, 0 ≤ s.confidence) :
    (bayesianScores baseW signals).1 + (bayesianScores baseW signals).2 ≤ 1 ∧
    (BayesianFusion.fuse_signals baseW signals).confidence ≤ 1 := by
  have hf0 : ∀ s ∈ signals, 0 ≤ baseW s.agent_type * s.confidence :=
    fun s hs => mul_nonneg (hw _) (hc s hs)
  have hnormeq : ∀ d : List (String × ℚ), normalizeWeights d =
      if 0 < (d.map (fun kv => kv.2)).sum
      then d.map (fun kv => (kv.1, kv.2 / (d.map (fun kv => kv.2)).sum))
      else d := fun d => rfl
  have hsnd : (signals.map
      (fun s => (s.agent_type, baseW s.agent_type * s.confidence))).map
        (fun kv => kv.2) =
      signals.map (fun s => baseW s.agent_type * s.confidence) := by
    rw [List.map_map]
    rfl
  set S := (signals.map (fun s => baseW s.agent_type * s.confidence)).sum
    with hS
  have hT0 : 0 ≤ S := by
    refine listSum_nonneg _ ?_
    intro x hx
    obtain ⟨s, hs, rfl⟩ := List.mem_map.mp hx
    exact hf0 s hs
  -- the per-signal value the vote loop reads from the (normalized) dict
  have hget : ∀ s ∈ signals,
      dictGet (normalizeWeights (signals.map
        (fun s => (s.agent_type, baseW s.agent_type * s.confidence))))
        s.agent_type =
      (if 0 < S then (baseW s.agent_type * s.confidence) / S
       else baseW s.agent_type * s.confidence) := by
    intro s hs
    rw [hnormeq, hsnd, ← hS]
    by_cases hT : 0 < S
    · rw [if_pos hT, if_pos hT]
      rw [show (signals.map
          (fun s => (s.agent_type, baseW s.agent_type * s.confidence))).map
            (fun kv => (kv.1, kv.2 / S)) =
          signals.map (fun t =>
            (t.agent_type, (baseW t.agent_type * t.confidence) / S)) from by
        rw [List.map_map]
        rfl]
      unfold dictGet
      rw [lookup_map_of_nodup
        (fun t => (baseW t.agent_type * t.confidence) / S) signals hnd s hs]
      rfl
    · rw [if_neg hT, if_neg hT]
      unfold dictGet
      rw [lookup_map_of_nodup
        (fun t => baseW t.agent_type * t.confidence) signals hnd s hs]
      rfl
  set g : FSignal → ℚ := fun s =>
    (if 0 < S then (baseW s.agent_type * s.confidence) / S
     else baseW s.agent_type * s.confidence) with hg
  have hg0 : ∀ s ∈ signals, 0 ≤ g s := by
    intro s hs
    rw [hg]
    dsimp only
    split_ifs with hT
    · exact div_nonneg (hf0 s hs) hT.le
    · exact hf0 s hs
  have hgsum : (signals.map g).sum ≤ 1 := by
    by_cases hT : 0 < S
    · have : signals.map g = signals.map
          (fun s => (baseW s.agent_type * s.confidence) / S) := by
        refine List.map_congr_left ?_
        intro s _
        rw [hg]
        dsimp only
        rw [if_pos hT]
      rw [this, listSum_map_div, ← hS, div_self (ne_of_gt hT)]
    · have hSz : S = 0 := le_antisymm (not_lt.mp hT) hT0
      have hzero : ∀ s ∈ signals, g s = 0 := by
        intro s hs
        have hall := listSum_zero_of_nonneg
          (signals.map (fun s => baseW s.agent_type * s.confidence))
          (by
            intro x hx
            obtain ⟨t, ht, rfl⟩ := List.mem_map.mp hx
            exact hf0 t ht)
          (by rw [← hS, hSz])
        have := hall (baseW s.agent_type * s.confidence)
          (List.mem_map_of_mem _ hs)
        rw [hg]
        dsimp only
        rw [if_neg hT, this]
      have : (signals.map g).sum = 0 := by
        refine List.sum_eq_zero ?_
        intro x hx
        obtain ⟨t, ht, rfl⟩ := List.mem_map.mp hx
        exact hzero t ht
      rw [this]
      norm_num
  have hmapget : ∀ p : FSignal → Bool,
      (signals.filter p).map (fun s =>
        dictGet (normalizeWeights (signals.map
          (fun s => (s.agent_type, baseW s.agent_type * s.confidence))))
          s.agent_type) =
      (signals.filter p).map g := by
    intro p
    refine List.map_congr_left ?_
    intro s hs
    rw [hget s (List.mem_of_mem_filter hs), hg]
  have hexcl : ∀ s : FSignal, ¬((s.signal == SignalType.BUY) = true ∧
      (s.signal == SignalType.SELL) = true) := by
    rintro s ⟨h1, h2⟩
    cases hsig : s.signal <;> rw [hsig] at h1 h2 <;> simp_all
  have hfilters := filter_pair_sum_le
    (fun s => s.signal == SignalType.BUY)
    (fun s => s.signal == SignalType.SELL) hexcl g signals hg0
  have hbuy0 : 0 ≤ ((signals.filter
      (fun s => s.signal == SignalType.BUY)).map g).sum := by
    refine listSum_nonneg _ ?_
    intro x hx
    obtain ⟨t, ht, rfl⟩ := List.mem_map.mp hx
    exact hg0 t (List.mem_of_mem_filter ht)
  have hsell0 : 0 ≤ ((signals.filter
      (fun s => s.signal == SignalType.SELL)).map g).sum := by
    refine listSum_nonneg _ ?_
    intro x hx
    obtain ⟨t, ht, rfl⟩ := List.mem_map.mp hx
    exact hg0 t (List.mem_of_mem_filter ht)
  have hscores : bayesianScores baseW signals =
      (((signals.filter (fun s => s.signal == SignalType.BUY)).map g).sum,
       ((signals.filter (fun s => s.signal == SignalType.SELL)).map g).sum) := by
    unfold bayesianScores
    rw [buildAgentWeights_eq_map baseW signals hnd]
    dsimp only
    rw [hmapget, hmapget]
  have key₁ : (bayesianScores baseW signals).1 +
      (bayesianScores baseW signals).2 ≤ 1 := by
    rw [hscores]
    dsimp only
    linarith
  refine ⟨key₁, ?_⟩
  unfold BayesianFusion.fuse_signals
  by_cases hemp : signals.isEmpty = true
  · rw [if_pos hemp]
    norm_num
  · rw [if_neg hemp]
    dsimp only
    unfold decideScores
    have h1 : 0 ≤ (bayesianScores baseW signals).1 := by
      rw [hscores]
      exact hbuy0
    have h2 : 0 ≤ (bayesianScores baseW signals).2 := by
      rw [hscores]
      exact hsell0
    split_ifs
    · dsimp only
      linarith
    · dsimp only
      linarith
    · dsimp only
      rw [max_le_iff]
      constructor <;> linarith

/-- Instantiation of the bounded-scores theorem at a single
full-confidence BUY signal: `buy_score + sell_score ≤ 1` and the fused
confidence is at most 1. -/
theorem bayesian_scores_bounded_witness :
    (bayesianScores (fun _ => 0.5) [dupSignal]).1 +
      (bayesianScores (fun _ => 0.5) [dupSignal]).2 ≤ 1 ∧
    (BayesianFusion.fuse_signals (fun _ => 0.5) [dupSignal]).confidence ≤ 1 := by
  refine bayesian_scores_bounded (fun _ => 0.5) [dupSignal] (by simp) ?_ ?_
  · intro a
    norm_num
  · intro s hs
    rcases List.mem_singleton.mp hs with rfl
    norm_num [dupSignal]

/-- Null/value decoding inverts the optional-string dump. -/
theorem asOptStr_jOptStr (x : Option String) : asOptStr (jOptStr x) = some x := by
  cases x <;> rfl

/-- Null/value decoding inverts the optional-float dump. -/
theorem asOptNum_jOptNum (x : Option ℚ) : asOptNum (jOptNum x) = some x := by
  cases x <;> rfl

/-- Enum parsing inverts the enum dump for `SignalType`. -/
theorem signalTypeOfString_inv (t : SignalType) :
    signalTypeOfString (signalTypeStr t) = some t := by
  cases t <;> rfl

/-- Enum parsing inverts the enum dump for `OrderSide`. -/
theorem orderSideOfString_inv (sd : OrderSide) :
    orderSideOfString (orderSideStr sd) = some sd := by
  cases sd <;> rfl

/-- Parsing inverts the dump of the indicators dict. -/
theorem decodeIndicators_inv (l : List (String × ℚ)) :
    decodeIndicators (l.map (fun kv => (kv.1, JValue.jnum kv.2))) = some l := by
  induction l with
  | nil => rfl
  | cons kv rest ih =>
      obtain ⟨k, v⟩ := kv
      simp [decodeIndicators, asNum, ih]

set_option maxHeartbeats 2000000 in
/-- Pydantic validation inverts `model_dump` on a valid `TradingSignal`. -/
theorem deserializeSignal_inv (s : TradingSignalMsg) (h : s.valid) :
    deserializeSignal (serializeSignal s) = some s := by
  obtain ⟨hc0, hc1⟩ := h
  obtain ⟨ver, ts, sa, cid, md, agt, sym, sig, conf, pt, sl, tp, rsn, ind⟩ := s
  simp only [TradingSignalMsg.valid] at hc0 hc1
  simp [serializeSignal, deserializeSignal, asObj, reqField, optField,
    List.lookup, asStr, asNum, asDt, asOptStr_jOptStr, asOptNum_jOptNum,
    signalTypeOfString_inv, decodeIndicators_inv, hc0, hc1]

/-- Parsing inverts the dump of a list of valid `TradingSignal`s. -/
theorem decodeSignals_inv (l : List TradingSignalMsg)
    (h : ∀ s ∈ l, s.valid) :
    decodeSignals (l.map serializeSignal) = some l := by
  induction l with
  | nil => rfl
  | cons s rest ih =>
      simp [decodeSignals,
        deserializeSignal_inv s (h s (List.mem_cons_self _ _)),
        ih (fun t ht => h t (List.mem_cons_of_mem _ ht))]

set_option maxHeartbeats 2000000 in
/-- C9: deserializing the serialized form of any (pydantic-valid) Trade
Intent message returns the message itself. -/
theorem serialize_message_roundtrip (i : TradeIntentMsg) (h : i.valid) :
    deserialize_message (serialize_message i) = some i := by
  obtain ⟨hc0, hc1, hsigs⟩ := h
  obtain ⟨ver, ts, sa, cid, md, sym, side, qty, ep, sigs, sn, conf⟩ := i
  simp only [TradeIntentMsg.valid] at hc0 hc1
  simp [serialize_message, deserialize_message, asObj, reqField, optField,
    List.lookup, asStr, asNum, asDt, asArr, asOptStr_jOptStr,
    asOptNum_jOptNum, orderSideOfString_inv, decodeSignals_inv sigs hsigs,
    hc0, hc1]

/-- Instantiation of the round-trip theorem at a concrete intent carrying
one signal. -/
theorem serialize_message_roundtrip_witness :
    deserialize_message (serialize_message sampleIntent) =
      some sampleIntent := by
  refine serialize_message_roundtrip sampleIntent ?_
  refine ⟨by norm_num [sampleIntent], by norm_num [sampleIntent], ?_⟩
  intro s hs
  have : s = sampleSignal := by
    simpa [sampleIntent] using hs
  rw [this]
  constructor <;> norm_num [sampleSignal, TradingSignalMsg.valid]

end Trading

